import Mathlib

/-
Verification of the payment-gateway orchestration layer
(saleor/payment/gateway.py) against its specification.

The module under scrutiny is gateway.py; its collaborators
(payment/utils.py, payment/models.py, core/payments.py) are not part of
the sources, so those are modelled from the specification and marked as
such in their doc comments.  Python exceptions are modelled with
`Except`, Decimal amounts with rationals, and each orchestration call
additionally reports its observable effects (backend invocations,
persisted transactions, post-processed transactions, final payment
state) in an `OpTrace`.
-/

namespace Saleor

/-- Money amounts: Python `Decimal` values modelled as integers (the code only
compares amounts and adds them, both exact on any fixed decimal scale). -/
abbrev Amount := ℤ

/-- Transaction kinds used by gateway.py (`TransactionKind` constants:
AUTH, CAPTURE, REFUND, VOID, CONFIRM). -/
inductive TransactionKind where
  | auth
  | capture
  | refund
  | void
  | confirm
deriving DecidableEq, Repr

/-- Card metadata optionally carried by a gateway response. -/
structure CardInfo where
  brand : String
  last_digits : String
deriving DecidableEq, Repr

/-- Modelled from the spec: the normalized `GatewayResponse` a backend returns
(its class is not under src/) — success flag, transaction token, optional error
detail, optional card info; `well_formed` stands for "all required fields
present", the structural property the ResponseValidator checks. -/
structure GatewayResponse where
  is_success : Bool
  token : String
  error : Option String
  card_info : Option CardInfo
  well_formed : Bool
deriving DecidableEq, Repr

/-- Modelled from the spec: the persisted `Transaction` record referenced by
gateway.py (models.py is not under src/) — kind, gateway token, amount,
success flag, optional error message. -/
structure Transaction where
  kind : TransactionKind
  token : String
  amount : Amount
  is_success : Bool
  error : Option String
deriving DecidableEq, Repr

/-- Modelled from the spec: the `Payment` fields gateway.py reads (models.py is
not under src/) — configured gateway identifier (may be unset), `is_active`,
`captured_amount`, the total/charge amount, the `can_refund()` capability,
card metadata, and the payment's transactions held most recent first. -/
structure Payment where
  gateway : Option String
  is_active : Bool
  captured_amount : Amount
  total : Amount
  can_refund : Bool
  card_info : Option CardInfo
  transactions : List Transaction
deriving DecidableEq, Repr

/-- Modelled from the spec: the ephemeral `PaymentInformation` snapshot built by
`create_payment_information` (utils.py, not under src/) — token, amount,
store-source flag. -/
structure PaymentInformation where
  token : Option String
  amount : Amount
  store_source : Bool
deriving DecidableEq, Repr

/-- Python exception classes that can escape an orchestration call. -/
inductive PyError where
  | paymentError (msg : String)
  | improperlyConfigured (msg : String)
  | attributeError (msg : String)
  | unboundLocalError (msg : String)
deriving DecidableEq, Repr

/-- Behaviour of the single backend invocation an operation performs: the
plugin-manager call either returns a `GatewayResponse` or raises. -/
inductive BackendResult where
  | resp (r : GatewayResponse)
  | exn
deriving DecidableEq, Repr

/-- Constant `ERROR_MSG` from gateway.py. -/
def ERROR_MSG : String := "Oops! Something went wrong."

/-- Constant `GENERIC_TRANSACTION_ERROR` from gateway.py. -/
def GENERIC_TRANSACTION_ERROR : String := "Transaction was unsuccessful"

/-- Observable effects of one orchestration call: payment-information snapshots
passed to backend invocations, transactions persisted, transactions the
post-processing hook ran on, and the resulting payment state. -/
structure OpTrace where
  backendCalls : List PaymentInformation
  createdTxns : List Transaction
  postprocessed : List Transaction
  payment : Payment
deriving DecidableEq, Repr

instance {E A : Type} [DecidableEq E] [DecidableEq A] : DecidableEq (Except E A) := fun a b =>
  match a, b with
  | Except.ok x, Except.ok y =>
    if h : x = y then isTrue (by rw [h])
    else isFalse (by intro hh; injection hh; exact h (by assumption))
  | Except.ok _, Except.error _ => isFalse (by intro hh; exact Except.noConfusion hh)
  | Except.error _, Except.ok _ => isFalse (by intro hh; exact Except.noConfusion hh)
  | Except.error x, Except.error y =>
    if h : x = y then isTrue (by rw [h])
    else isFalse (by intro hh; injection hh; exact h (by assumption))

/-- Result of one orchestration call: the Python outcome (returned transaction
or escaped exception) together with the observable effects. -/
structure OpResult where
  outcome : Except PyError Transaction
  trace : OpTrace
deriving DecidableEq, Repr

/-- Trace of a call that stopped before any backend call or persistence. -/
def pureTrace (payment : Payment) : OpTrace :=
  { backendCalls := [], createdTxns := [], postprocessed := [], payment := payment }

/-- Result of a call that raised `e` before any side effect. -/
def errResult (payment : Payment) (e : PyError) : OpResult :=
  { outcome := Except.error e, trace := pureTrace payment }

/-- Python truthiness of `a or b` for an optional string `a`: both `None` and
the empty string fall through to `b`. -/
def pyOr (a : Option String) (b : String) : String :=
  match a with
  | none => b
  | some s => if s = "" then b else s

/-- Decorator `raise_payment_error` (gateway.py): when the wrapped call returns
a transaction with `is_success = false`, raise
`PaymentError(result.error or GENERIC_TRANSACTION_ERROR)`; exceptions from the
wrapped call propagate unchanged. -/
def raise_payment_error (r : OpResult) : OpResult :=
  match r.outcome with
  | Except.error _ => r
  | Except.ok txn =>
    if txn.is_success then r
    else { r with outcome :=
             Except.error (PyError.paymentError (pyOr txn.error GENERIC_TRANSACTION_ERROR)) }

/-- Modelled from the spec (hook body): `gateway_postprocess` (utils.py, not
under src/) updates payment state, in particular `captured_amount` after a
successful capture; the call site and ordering come from gateway.py. -/
def gateway_postprocess (txn : Transaction) (payment : Payment) : Payment :=
  if txn.kind = TransactionKind.capture ∧ txn.is_success = true then
    { payment with captured_amount := payment.captured_amount + txn.amount }
  else payment

/-- Decorator `payment_postprocess` (gateway.py): run `gateway_postprocess` on
the transaction the wrapped call returned; exceptions from the wrapped call
propagate, so the hook is skipped whenever the inner `raise_payment_error`
(or a guard) raised. -/
def payment_postprocess (r : OpResult) : OpResult :=
  match r.outcome with
  | Except.error _ => r
  | Except.ok txn =>
    { r with trace := { r.trace with
        postprocessed := r.trace.postprocessed ++ [txn]
        payment := gateway_postprocess txn r.trace.payment } }

/-- Decorator `require_active_payment` (gateway.py): reject the call with
`PaymentError` before running the wrapped function when the payment is not
active. -/
def require_active_payment {A : Type} (fn : Payment → A) (onErr : PyError → A)
    (payment : Payment) : A :=
  if payment.is_active then fn payment
  else onErr (PyError.paymentError "This payment is no longer active.")

/-- Function `_get_gateway` (gateway.py).  Modelled from the spec for the
resolution fault: the `Gateway` class (core/payments.py) is not under src/;
per the spec, resolving an unset or unrecognized identifier fails, and
`knownGateways` lists the configured identifiers.  gateway.py catches the
resolution fault as `AttributeError` and re-raises `ImproperlyConfigured` with
an f-string that reads the local variable `gateway` — which is unbound exactly
when resolution failed, so Python raises `UnboundLocalError` while building the
message and `ImproperlyConfigured` is never actually raised. -/
def _get_gateway (knownGateways : List String) (payment : Payment) :
    Except PyError String :=
  match payment.gateway with
  | some g =>
    if g ∈ knownGateways then Except.ok g
    else Except.error
      (PyError.unboundLocalError "local variable gateway referenced before assignment")
  | none => Except.error
      (PyError.unboundLocalError "local variable gateway referenced before assignment")

/-- Modelled from the spec: `validate_gateway_response` (utils.py, not under
src/) checks structural well-formedness of a response and raises
`GatewayError` on a malformed one. -/
def validate_gateway_response (r : GatewayResponse) : Bool :=
  r.well_formed

/-- Function `_fetch_gateway_response` (gateway.py): invoke the backend and
validate the response; on a validation failure (`GatewayError`) or any other
exception, log and return `(None, ERROR_MSG)`; otherwise `(response, None)`. -/
def _fetch_gateway_response (backend : BackendResult) :
    Option GatewayResponse × Option String :=
  match backend with
  | BackendResult.exn => (none, some ERROR_MSG)
  | BackendResult.resp r =>
    if validate_gateway_response r then (some r, none)
    else (none, some ERROR_MSG)

/-- Function `_get_past_transaction_token` (gateway.py): the most recent
transaction of the given kind with `is_success = true` supplies the token
(the lookup ordering is modelled from the spec, the Transaction model being
outside src/; `payment.transactions` is held most recent first); raise
`PaymentError` when none exists.  Note the source message is a plain string
literal, not an f-string, so the placeholder is not interpolated. -/
def _get_past_transaction_token (payment : Payment) (kind : TransactionKind) :
    Except PyError String :=
  match payment.transactions.find? (fun t => (t.kind == kind) && t.is_success) with
  | some txn => Except.ok txn.token
  | none => Except.error
      (PyError.paymentError "Cannot find successful \x7bkind.value\x7d transaction")

/-- Function `_validate_refund_amound` (gateway.py; name as in the source). -/
def _validate_refund_amound (payment : Payment) (amount : Amount) :
    Except PyError Unit :=
  if amount ≤ 0 then
    Except.error (PyError.paymentError "Amount should be a positive number.")
  else if amount > payment.captured_amount then
    Except.error (PyError.paymentError "Cannot refund more than captured")
  else Except.ok ()

/-- Modelled from the spec: `payment.get_charge_amount()` (models.py, not under
src/) — the full charge amount a capture defaults to. -/
def get_charge_amount (payment : Payment) : Amount :=
  payment.total

/-- Modelled from the spec: `clean_capture` (utils.py, not under src/), the
capture-amount guard — fails when the amount is non-positive or exceeds the
chargeable amount. -/
def clean_capture (payment : Payment) (amount : Amount) : Except PyError Unit :=
  if amount ≤ 0 then
    Except.error (PyError.paymentError "Amount should be a positive number.")
  else if amount > payment.total then
    Except.error (PyError.paymentError "Unable to charge more than un-captured amount.")
  else Except.ok ()

/-- Modelled from the spec: `clean_authorize` (utils.py, not under src/); the
spec states no authorize precondition beyond the active-payment guard, so the
guard passes silently. -/
def clean_authorize (_payment : Payment) : Except PyError Unit :=
  Except.ok ()

/-- Modelled from the spec: `create_payment_information` (utils.py, not under
src/) builds the request-scoped snapshot; the amount defaults to the payment's
total when not supplied. -/
def create_payment_information (payment : Payment) (payment_token : Option String)
    (amount : Option Amount) (store_source : Bool) : PaymentInformation :=
  { token := payment_token
    amount := amount.getD payment.total
    store_source := store_source }

/-- Modelled from the spec: `create_transaction` (utils.py, not under src/),
the TransactionFactory — `is_success = (error is None and response.success)`;
the recorded error is the classifier's message when present, otherwise the
response's own error detail. -/
def create_transaction (kind : TransactionKind)
    (payment_information : PaymentInformation) (error_msg : Option String)
    (gateway_response : Option GatewayResponse) : Transaction :=
  { kind := kind
    token := (gateway_response.map (fun r => r.token)).getD ""
    amount := payment_information.amount
    is_success := error_msg.isNone && (gateway_response.map (fun r => r.is_success)).getD false
    error :=
      match error_msg with
      | some e => some e
      | none => gateway_response.bind (fun r => r.error) }

/-- Persisting a transaction appends it to the payment's rows (most recent
first). -/
def appendTransaction (payment : Payment) (txn : Transaction) : Payment :=
  { payment with transactions := txn :: payment.transactions }

/-- Modelled from the spec: `update_card_details` (utils.py, not under src/)
copies the response's card metadata onto the payment. -/
def update_card_details (payment : Payment) (response : GatewayResponse) : Payment :=
  { payment with card_info := response.card_info }

/-- Body of `process_payment` (gateway.py), before its decorators. -/
def process_payment_inner (knownGateways : List String) (backend : BackendResult)
    (token : String) (store_source : Bool) (payment : Payment) : OpResult :=
  match _get_gateway knownGateways payment with
  | Except.error e => errResult payment e
  | Except.ok _gateway =>
    let payment_data := create_payment_information payment (some token) none store_source
    let re := _fetch_gateway_response backend
    let txn := create_transaction TransactionKind.capture payment_data re.2 re.1
    { outcome := Except.ok txn
      trace := { backendCalls := [payment_data], createdTxns := [txn],
                 postprocessed := [], payment := appendTransaction payment txn } }

/-- Operation `process_payment` (gateway.py) with its decorator stack:
`payment_postprocess`, then `raise_payment_error`, then
`require_active_payment`, outermost first. -/
def process_payment (knownGateways : List String) (backend : BackendResult)
    (payment : Payment) (token : String) (store_source : Bool) : OpResult :=
  payment_postprocess (raise_payment_error
    (require_active_payment (process_payment_inner knownGateways backend token store_source)
      (errResult payment) payment))

/-- Body of `authorize` (gateway.py), before its decorators: `clean_authorize`
runs first, then gateway resolution, dispatch and transaction creation. -/
def authorize_inner (knownGateways : List String) (backend : BackendResult)
    (token : String) (store_source : Bool) (payment : Payment) : OpResult :=
  match clean_authorize payment with
  | Except.error e => errResult payment e
  | Except.ok _ =>
  match _get_gateway knownGateways payment with
  | Except.error e => errResult payment e
  | Except.ok _gateway =>
    let payment_data := create_payment_information payment (some token) none store_source
    let re := _fetch_gateway_response backend
    let txn := create_transaction TransactionKind.auth payment_data re.2 re.1
    { outcome := Except.ok txn
      trace := { backendCalls := [payment_data], createdTxns := [txn],
                 postprocessed := [], payment := appendTransaction payment txn } }

/-- Operation `authorize` (gateway.py) with its decorator stack. -/
def authorize (knownGateways : List String) (backend : BackendResult)
    (payment : Payment) (token : String) (store_source : Bool) : OpResult :=
  payment_postprocess (raise_payment_error
    (require_active_payment (authorize_inner knownGateways backend token store_source)
      (errResult payment) payment))

/-- Body of `capture` (gateway.py), before its decorators: amount defaulting,
`clean_capture`, gateway resolution, AUTH-token lookup, dispatch; then the
source evaluates `response.card_info`, which on a failed dispatch is an
attribute access on `None` and raises `AttributeError` before any transaction
is created. -/
def capture_inner (knownGateways : List String) (backend : BackendResult)
    (amountOpt : Option Amount) (store_source : Bool) (payment : Payment) : OpResult :=
  let amount := amountOpt.getD (get_charge_amount payment)
  match clean_capture payment amount with
  | Except.error e => errResult payment e
  | Except.ok _ =>
  match _get_gateway knownGateways payment with
  | Except.error e => errResult payment e
  | Except.ok _gateway =>
  match _get_past_transaction_token payment TransactionKind.auth with
  | Except.error e => errResult payment e
  | Except.ok token =>
    let payment_data := create_payment_information payment (some token) (some amount) store_source
    let re := _fetch_gateway_response backend
    match re.1 with
    | none =>
      { outcome := Except.error
          (PyError.attributeError "NoneType object has no attribute card_info")
        trace := { backendCalls := [payment_data], createdTxns := [],
                   postprocessed := [], payment := payment } }
    | some r =>
      let payment1 := if r.card_info.isSome then update_card_details payment r else payment
      let txn := create_transaction TransactionKind.capture payment_data re.2 (some r)
      { outcome := Except.ok txn
        trace := { backendCalls := [payment_data], createdTxns := [txn],
                   postprocessed := [], payment := appendTransaction payment1 txn } }

/-- Operation `capture` (gateway.py) with its decorator stack. -/
def capture (knownGateways : List String) (backend : BackendResult)
    (payment : Payment) (amountOpt : Option Amount) (store_source : Bool) : OpResult :=
  payment_postprocess (raise_payment_error
    (require_active_payment (capture_inner knownGateways backend amountOpt store_source)
      (errResult payment) payment))

/-- Body of `refund` (gateway.py), before its decorators: amount defaulting to
`captured_amount`, `_validate_refund_amound`, the `can_refund()` check,
gateway resolution, CAPTURE-token lookup, dispatch, transaction creation. -/
def refund_inner (knownGateways : List String) (backend : BackendResult)
    (amountOpt : Option Amount) (payment : Payment) : OpResult :=
  let amount := amountOpt.getD payment.captured_amount
  match _validate_refund_amound payment amount with
  | Except.error e => errResult payment e
  | Except.ok _ =>
  if payment.can_refund then
    match _get_gateway knownGateways payment with
    | Except.error e => errResult payment e
    | Except.ok _gateway =>
    match _get_past_transaction_token payment TransactionKind.capture with
    | Except.error e => errResult payment e
    | Except.ok token =>
      let payment_data := create_payment_information payment (some token) (some amount) false
      let re := _fetch_gateway_response backend
      let txn := create_transaction TransactionKind.refund payment_data re.2 re.1
      { outcome := Except.ok txn
        trace := { backendCalls := [payment_data], createdTxns := [txn],
                   postprocessed := [], payment := appendTransaction payment txn } }
  else errResult payment (PyError.paymentError "This payment cannot be refunded.")

/-- Operation `refund` (gateway.py) with its decorator stack. -/
def refund (knownGateways : List String) (backend : BackendResult)
    (payment : Payment) (amountOpt : Option Amount) : OpResult :=
  payment_postprocess (raise_payment_error
    (require_active_payment (refund_inner knownGateways backend amountOpt)
      (errResult payment) payment))

/-- Body of `void` (gateway.py), before its decorators. -/
def void_inner (knownGateways : List String) (backend : BackendResult)
    (payment : Payment) : OpResult :=
  match _get_gateway knownGateways payment with
  | Except.error e => errResult payment e
  | Except.ok _gateway =>
  match _get_past_transaction_token payment TransactionKind.auth with
  | Except.error e => errResult payment e
  | Except.ok token =>
    let payment_data := create_payment_information payment (some token) none false
    let re := _fetch_gateway_response backend
    let txn := create_transaction TransactionKind.void payment_data re.2 re.1
    { outcome := Except.ok txn
      trace := { backendCalls := [payment_data], createdTxns := [txn],
                 postprocessed := [], payment := appendTransaction payment txn } }

/-- Operation `void` (gateway.py) with its decorator stack. -/
def void (knownGateways : List String) (backend : BackendResult)
    (payment : Payment) : OpResult :=
  payment_postprocess (raise_payment_error
    (require_active_payment (void_inner knownGateways backend)
      (errResult payment) payment))

/-- Body of `confirm` (gateway.py), before its decorators. -/
def confirm_inner (knownGateways : List String) (backend : BackendResult)
    (payment : Payment) : OpResult :=
  match _get_gateway knownGateways payment with
  | Except.error e => errResult payment e
  | Except.ok _gateway =>
  match _get_past_transaction_token payment TransactionKind.auth with
  | Except.error e => errResult payment e
  | Except.ok token =>
    let payment_data := create_payment_information payment (some token) none false
    let re := _fetch_gateway_response backend
    let txn := create_transaction TransactionKind.confirm payment_data re.2 re.1
    { outcome := Except.ok txn
      trace := { backendCalls := [payment_data], createdTxns := [txn],
                 postprocessed := [], payment := appendTransaction payment txn } }

/-- Operation `confirm` (gateway.py) with its decorator stack. -/
def confirm (knownGateways : List String) (backend : BackendResult)
    (payment : Payment) : OpResult :=
  payment_postprocess (raise_payment_error
    (require_active_payment (confirm_inner knownGateways backend)
      (errResult payment) payment))

/-- Operation `create_payment_form` (gateway.py): decorated with
`require_active_payment` only; the plugin manager builds the form, modelled
as the opaque value `formObj`. -/
def create_payment_form (knownGateways : List String) (formObj : String)
    (payment : Payment) (_data : String) : Except PyError String :=
  require_active_payment
    (fun p =>
      let _payment_data := create_payment_information p none none false
      match _get_gateway knownGateways p with
      | Except.error e => Except.error e
      | Except.ok _gateway => Except.ok formObj)
    Except.error payment

/-- Operation `list_payment_sources` (gateway.py): a pure pass-through to the
plugin manager; it takes no `Payment` at all. -/
def list_payment_sources (_gateway : String) (_customer_id : String)
    (backendList : List String) : List String :=
  backendList

/-- Operation `get_client_token` (gateway.py): builds the snapshot, resolves
the gateway and asks the backend (modelled as `backendToken`) for a client
token; it carries no active-payment guard. -/
def get_client_token (knownGateways : List String) (backendToken : String)
    (payment : Payment) : Except PyError String :=
  let _payment_data := create_payment_information payment none none false
  match _get_gateway knownGateways payment with
  | Except.error e => Except.error e
  | Except.ok _gateway => Except.ok backendToken

/-- Operation `list_gateways` (gateway.py): a pure pass-through to the plugin
manager. -/
def list_gateways (backendList : List String) : List String :=
  backendList

end Saleor

namespace Saleor

/-- Wrapper `payment_postprocess` never changes the Python outcome. -/
theorem payment_postprocess_outcome (r : OpResult) :
    (payment_postprocess r).outcome = r.outcome := by
  unfold payment_postprocess
  cases h : r.outcome <;> simp [h]

/-- Wrapper `payment_postprocess` never changes the backend-call log. -/
theorem payment_postprocess_backendCalls (r : OpResult) :
    (payment_postprocess r).trace.backendCalls = r.trace.backendCalls := by
  unfold payment_postprocess
  cases h : r.outcome <;> simp [h]

/-- Wrapper `payment_postprocess` never changes the persisted transactions. -/
theorem payment_postprocess_createdTxns (r : OpResult) :
    (payment_postprocess r).trace.createdTxns = r.trace.createdTxns := by
  unfold payment_postprocess
  cases h : r.outcome <;> simp [h]

/-- Wrapper `raise_payment_error` never changes the trace. -/
theorem raise_payment_error_trace (r : OpResult) :
    (raise_payment_error r).trace = r.trace := by
  unfold raise_payment_error
  cases h : r.outcome with
  | error e => simp [h]
  | ok txn => by_cases hs : txn.is_success <;> simp [h, hs]

/-- Wrapper `raise_payment_error` forwards exceptions of the wrapped call. -/
theorem raise_payment_error_outcome_error (r : OpResult) (e : PyError)
    (h : r.outcome = Except.error e) :
    (raise_payment_error r).outcome = Except.error e := by
  unfold raise_payment_error
  simp [h]

/-- Shape invariant every undecorated operation body satisfies: the hook has
not yet run, a returned transaction is exactly the persisted one, and an
exception means nothing was persisted. -/
def innerShape (r : OpResult) : Prop :=
  r.trace.postprocessed = []
  ∧ (∀ txn, r.outcome = Except.ok txn → r.trace.createdTxns = [txn])
  ∧ (∀ e, r.outcome = Except.error e → r.trace.createdTxns = [])

theorem errResult_shape (payment : Payment) (e : PyError) :
    innerShape (errResult payment e) := by
  unfold innerShape errResult pureTrace
  simp

theorem require_active_shape (fn : Payment → OpResult) (payment : Payment)
    (h : innerShape (fn payment)) :
    innerShape (require_active_payment fn (errResult payment) payment) := by
  unfold require_active_payment
  split
  · exact h
  · exact errResult_shape payment _

theorem process_payment_inner_shape (gws : List String) (backend : BackendResult)
    (token : String) (st : Bool) (payment : Payment) :
    innerShape (process_payment_inner gws backend token st payment) := by
  unfold process_payment_inner
  cases hg : _get_gateway gws payment with
  | error e => simp [hg, innerShape, errResult, pureTrace]
  | ok g => simp [hg, innerShape, errResult, pureTrace]

theorem authorize_inner_shape (gws : List String) (backend : BackendResult)
    (token : String) (st : Bool) (payment : Payment) :
    innerShape (authorize_inner gws backend token st payment) := by
  unfold authorize_inner
  cases hg : _get_gateway gws payment with
  | error e => simp [hg, clean_authorize, innerShape, errResult, pureTrace]
  | ok g => simp [hg, clean_authorize, innerShape, errResult, pureTrace]

theorem capture_inner_shape (gws : List String) (backend : BackendResult)
    (amountOpt : Option Amount) (st : Bool) (payment : Payment) :
    innerShape (capture_inner gws backend amountOpt st payment) := by
  unfold capture_inner
  cases hc : clean_capture payment (amountOpt.getD (get_charge_amount payment)) with
  | error e => simp [hc, innerShape, errResult, pureTrace]
  | ok u =>
    cases hg : _get_gateway gws payment with
    | error e => simp [hc, hg, innerShape, errResult, pureTrace]
    | ok g =>
      cases ht : _get_past_transaction_token payment TransactionKind.auth with
      | error e => simp [hc, hg, ht, innerShape, errResult, pureTrace]
      | ok tok =>
        cases hr : (_fetch_gateway_response backend).1 with
        | none => simp [hc, hg, ht, hr, innerShape, errResult, pureTrace]
        | some r => simp [hc, hg, ht, hr, innerShape, errResult, pureTrace]

theorem refund_inner_shape (gws : List String) (backend : BackendResult)
    (amountOpt : Option Amount) (payment : Payment) :
    innerShape (refund_inner gws backend amountOpt payment) := by
  unfold refund_inner
  cases hv : _validate_refund_amound payment (amountOpt.getD payment.captured_amount) with
  | error e => simp [hv, innerShape, errResult, pureTrace]
  | ok u =>
    by_cases hcr : payment.can_refund = true
    · cases hg : _get_gateway gws payment with
      | error e => simp [hv, hcr, hg, innerShape, errResult, pureTrace]
      | ok g =>
        cases ht : _get_past_transaction_token payment TransactionKind.capture with
        | error e => simp [hv, hcr, hg, ht, innerShape, errResult, pureTrace]
        | ok tok => simp [hv, hcr, hg, ht, innerShape, errResult, pureTrace]
    · simp [hv, hcr, innerShape, errResult, pureTrace]

theorem void_inner_shape (gws : List String) (backend : BackendResult)
    (payment : Payment) :
    innerShape (void_inner gws backend payment) := by
  unfold void_inner
  cases hg : _get_gateway gws payment with
  | error e => simp [hg, innerShape, errResult, pureTrace]
  | ok g =>
    cases ht : _get_past_transaction_token payment TransactionKind.auth with
    | error e => simp [hg, ht, innerShape, errResult, pureTrace]
    | ok tok => simp [hg, ht, innerShape, errResult, pureTrace]

theorem confirm_inner_shape (gws : List String) (backend : BackendResult)
    (payment : Payment) :
    innerShape (confirm_inner gws backend payment) := by
  unfold confirm_inner
  cases hg : _get_gateway gws payment with
  | error e => simp [hg, innerShape, errResult, pureTrace]
  | ok g =>
    cases ht : _get_past_transaction_token payment TransactionKind.auth with
    | error e => simp [hg, ht, innerShape, errResult, pureTrace]
    | ok tok => simp [hg, ht, innerShape, errResult, pureTrace]

end Saleor

namespace Saleor

/-- Outer contract of `raise_payment_error` as seen through the full decorator
stack: a persisted failed transaction is surfaced as `PaymentError` built from
its recorded error (Python `or`, so a missing or empty message falls back to
the generic one); a persisted successful transaction is returned unchanged. -/
def raiseContract (r : OpResult) : Prop :=
  (∀ txn, r.trace.createdTxns = [txn] → txn.is_success = false →
     r.outcome = Except.error (PyError.paymentError (pyOr txn.error GENERIC_TRANSACTION_ERROR)))
  ∧ (∀ txn, r.trace.createdTxns = [txn] → txn.is_success = true →
     r.outcome = Except.ok txn)

/-- Contract of the post-processing hook as the decorators actually compose it:
the hook runs exactly on transactions that are returned to the caller. -/
def postprocessContract (r : OpResult) : Prop :=
  (∀ txn, r.outcome = Except.ok txn → r.trace.postprocessed = [txn])
  ∧ (∀ e, r.outcome = Except.error e → r.trace.postprocessed = [])

theorem wrapped_raiseContract (r : OpResult) (h : innerShape r) :
    raiseContract (payment_postprocess (raise_payment_error r)) := by
  obtain ⟨hpp, hok, herr⟩ := h
  constructor
  · intro txn hcreated hfail
    rw [payment_postprocess_createdTxns, raise_payment_error_trace] at hcreated
    rw [payment_postprocess_outcome]
    cases ho : r.outcome with
    | error e => rw [herr e ho] at hcreated; cases hcreated
    | ok txn0 =>
      have := hok txn0 ho
      rw [this] at hcreated
      injection hcreated with h1 h2
      subst h1
      unfold raise_payment_error
      rw [ho]
      simp [hfail]
  · intro txn hcreated hsucc
    rw [payment_postprocess_createdTxns, raise_payment_error_trace] at hcreated
    rw [payment_postprocess_outcome]
    cases ho : r.outcome with
    | error e => rw [herr e ho] at hcreated; cases hcreated
    | ok txn0 =>
      have := hok txn0 ho
      rw [this] at hcreated
      injection hcreated with h1 h2
      subst h1
      unfold raise_payment_error
      rw [ho]
      simp [hsucc, ho]

theorem wrapped_postprocessContract (r : OpResult) (h : innerShape r) :
    postprocessContract (payment_postprocess (raise_payment_error r)) := by
  obtain ⟨hpp, hok, herr⟩ := h
  constructor
  · intro txn hres
    cases ho : r.outcome with
    | error e =>
      have : (raise_payment_error r).outcome = Except.error e :=
        raise_payment_error_outcome_error r e ho
      rw [payment_postprocess_outcome, this] at hres
      cases hres
    | ok txn0 =>
      by_cases hs : txn0.is_success = true
      · have hro : (raise_payment_error r).outcome = Except.ok txn0 := by
          unfold raise_payment_error; rw [ho]; simp [hs, ho]
        have hres2 := hres
        rw [payment_postprocess_outcome, hro] at hres2
        injection hres2 with h1
        subst h1
        unfold payment_postprocess
        rw [hro]
        simp [raise_payment_error_trace, hpp]
      · have hro : (raise_payment_error r).outcome
            = Except.error (PyError.paymentError (pyOr txn0.error GENERIC_TRANSACTION_ERROR)) := by
          unfold raise_payment_error; rw [ho]; simp [hs]
        rw [payment_postprocess_outcome, hro] at hres
        cases hres
  · intro e hres
    cases ho : r.outcome with
    | error e0 =>
      have : (raise_payment_error r).outcome = Except.error e0 :=
        raise_payment_error_outcome_error r e0 ho
      unfold payment_postprocess
      rw [this]
      simp [raise_payment_error_trace, hpp]
    | ok txn0 =>
      by_cases hs : txn0.is_success = true
      · have hro : (raise_payment_error r).outcome = Except.ok txn0 := by
          unfold raise_payment_error; rw [ho]; simp [hs, ho]
        rw [payment_postprocess_outcome, hro] at hres
        cases hres
      · have hro : (raise_payment_error r).outcome
            = Except.error (PyError.paymentError (pyOr txn0.error GENERIC_TRANSACTION_ERROR)) := by
          unfold raise_payment_error; rw [ho]; simp [hs]
        unfold payment_postprocess
        rw [hro]
        simp [raise_payment_error_trace, hpp]

/-- Decorated operations leave a plain pre-dispatch rejection unchanged. -/
theorem wrapped_errResult (payment : Payment) (e : PyError) :
    payment_postprocess (raise_payment_error (errResult payment e)) = errResult payment e := rfl

/-- Sample data used by witnesses and counterexamples. -/
def samplePayment : Payment :=
  { gateway := some "dummy", is_active := true, captured_amount := 0, total := 100,
    can_refund := true, card_info := none, transactions := [] }

/-- Sample prior successful AUTH transaction. -/
def sampleAuthTxn : Transaction :=
  { kind := TransactionKind.auth, token := "auth-token", amount := 100,
    is_success := true, error := none }

/-- Sample active payment carrying a successful AUTH transaction. -/
def authedPayment : Payment :=
  { gateway := some "dummy", is_active := true, captured_amount := 0, total := 100,
    can_refund := true, card_info := none, transactions := [sampleAuthTxn] }

end Saleor

namespace Saleor

/-- Rejection by the active-payment guard: the inactive-payment `PaymentError`
escapes, no backend was invoked, nothing was persisted. -/
def inactiveRejected (r : OpResult) : Prop :=
  r.outcome = Except.error (PyError.paymentError "This payment is no longer active.")
  ∧ r.trace.backendCalls = [] ∧ r.trace.createdTxns = []

/-- Every error `_get_gateway` produces is the `UnboundLocalError` raised while
formatting the would-be `ImproperlyConfigured` message. -/
theorem _get_gateway_error (gws : List String) (payment : Payment) (e : PyError)
    (h : _get_gateway gws payment = Except.error e) :
    e = PyError.unboundLocalError "local variable gateway referenced before assignment" := by
  unfold _get_gateway at h
  split at h
  · split at h
    · cases h
    · injection h with h1; exact h1.symm
  · injection h with h1; exact h1.symm

/-- Sample active payment with a prior successful AUTH but an unconfigured
gateway identifier. -/
def fakeGatewayPayment : Payment :=
  { gateway := some "fake-gateway", is_active := true, captured_amount := 0, total := 100,
    can_refund := true, card_info := none, transactions := [sampleAuthTxn] }

/-- C1: evaluation of `capture` at the failing input — an active payment with a
prior successful AUTH whose backend call raises.  The backend is invoked (one
logged call), the call escapes with the `AttributeError` raised by
`response.card_info` on the `None` response, and no `Transaction` is
persisted, contradicting the claim that a failed gateway call still records
exactly one transaction. -/
theorem C1_capture_gateway_failure_drops_transaction :
    (capture ["dummy"] BackendResult.exn authedPayment none false).outcome
      = Except.error (PyError.attributeError "NoneType object has no attribute card_info")
    ∧ (capture ["dummy"] BackendResult.exn authedPayment none false).trace.createdTxns = []
    ∧ (capture ["dummy"] BackendResult.exn authedPayment none false).trace.backendCalls
      = [{ token := some "auth-token", amount := 100, store_source := false }] := by
  refine ⟨by decide, by decide, by decide⟩

/-- C3: every one of the six mutating operations on an inactive payment raises
the inactive-payment `PaymentError`, invokes no backend, and persists no
transaction. -/
theorem C3_inactive_payment_rejects_all_mutating_operations (gws : List String)
    (backend : BackendResult) (payment : Payment) (token : String) (st : Bool)
    (amountOpt ramountOpt : Option Amount) (h : payment.is_active = false) :
    inactiveRejected (process_payment gws backend payment token st)
    ∧ inactiveRejected (authorize gws backend payment token st)
    ∧ inactiveRejected (capture gws backend payment amountOpt st)
    ∧ inactiveRejected (refund gws backend payment ramountOpt)
    ∧ inactiveRejected (void gws backend payment)
    ∧ inactiveRejected (confirm gws backend payment) := by
  refine ⟨?_, ?_, ?_, ?_, ?_, ?_⟩ <;>
    simp [process_payment, authorize, capture, refund, void, confirm,
          require_active_payment, h, inactiveRejected,
          payment_postprocess, raise_payment_error, errResult, pureTrace]

/-- C3 witness: a concrete inactive payment is rejected by every operation. -/
theorem C3_witness :
    inactiveRejected (process_payment ["dummy"] BackendResult.exn
      { samplePayment with is_active := false } "tok" false)
    ∧ inactiveRejected (authorize ["dummy"] BackendResult.exn
      { samplePayment with is_active := false } "tok" false)
    ∧ inactiveRejected (capture ["dummy"] BackendResult.exn
      { samplePayment with is_active := false } none false)
    ∧ inactiveRejected (refund ["dummy"] BackendResult.exn
      { samplePayment with is_active := false } none)
    ∧ inactiveRejected (void ["dummy"] BackendResult.exn
      { samplePayment with is_active := false })
    ∧ inactiveRejected (confirm ["dummy"] BackendResult.exn
      { samplePayment with is_active := false }) :=
  C3_inactive_payment_rejects_all_mutating_operations ["dummy"] BackendResult.exn
    { samplePayment with is_active := false } "tok" false none none (by decide)

/-- C7 counterexample: `create_payment_form` is decorated with the
active-payment guard in the source, so on an inactive payment it raises the
inactive-payment error, contrary to the claim that no pure read operation
does. -/
theorem C7_counterexample_form_requires_active_payment :
    create_payment_form ["dummy"] "form" { samplePayment with is_active := false } "data"
      = Except.error (PyError.paymentError "This payment is no longer active.") := by decide

/-- C8: evaluation at the failing input — `void` on an active payment whose
gateway identifier is not configured.  The call fails before any backend
invocation and persists nothing, but the escaping exception is the
`UnboundLocalError` raised while the `except AttributeError` handler formats
its message (the f-string reads the local `gateway`, unbound exactly when
resolution failed), not the `ImproperlyConfigured` the claim states. -/
theorem C8_unknown_gateway_raises_unbound_local :
    (void ["dummy"] BackendResult.exn fakeGatewayPayment).outcome
      = Except.error (PyError.unboundLocalError "local variable gateway referenced before assignment")
    ∧ (void ["dummy"] BackendResult.exn fakeGatewayPayment).trace.createdTxns = []
    ∧ (void ["dummy"] BackendResult.exn fakeGatewayPayment).trace.backendCalls = [] := by
  refine ⟨by decide, by decide, by decide⟩

/-- C10: `refund` with no explicit amount on an active payment with
non-positive `captured_amount` defaults the amount to `captured_amount`,
fails the amount guard with the positive-amount `PaymentError`, invokes no
backend and persists nothing — for every gateway configuration, so the
rejection happens before gateway resolution. -/
theorem C10_refund_default_amount_nonpositive (gws : List String)
    (backend : BackendResult) (payment : Payment)
    (hact : payment.is_active = true) (hcap : payment.captured_amount ≤ 0) :
    (refund gws backend payment none).outcome
      = Except.error (PyError.paymentError "Amount should be a positive number.")
    ∧ (refund gws backend payment none).trace.backendCalls = []
    ∧ (refund gws backend payment none).trace.createdTxns = [] := by
  have hv : _validate_refund_amound payment payment.captured_amount
      = Except.error (PyError.paymentError "Amount should be a positive number.") := by
    unfold _validate_refund_amound
    rw [if_pos hcap]
  simp [refund, require_active_payment, hact, refund_inner, hv,
        payment_postprocess, raise_payment_error, errResult, pureTrace]

/-- C10 witness: concrete run on a payment with `captured_amount = 0` and an
unconfigured gateway list. -/
theorem C10_witness :
    (refund ["nope"] BackendResult.exn samplePayment none).outcome
      = Except.error (PyError.paymentError "Amount should be a positive number.")
    ∧ (refund ["nope"] BackendResult.exn samplePayment none).trace.backendCalls = []
    ∧ (refund ["nope"] BackendResult.exn samplePayment none).trace.createdTxns = [] :=
  C10_refund_default_amount_nonpositive ["nope"] BackendResult.exn samplePayment
    (by decide) (by decide)

end Saleor

namespace Saleor

/-- C2 counterexample: `authorize` on an active payment whose backend raises
persists a failed transaction, yet the post-processing hook does not run on it
— `raise_payment_error` sits inside `payment_postprocess`, so the
`PaymentError` raised for the failed transaction skips the hook, refuting the
claim that the hook runs regardless of `is_success`. -/
theorem C2_counterexample_failed_transaction_not_postprocessed :
    (authorize ["dummy"] BackendResult.exn samplePayment "tok" false).trace.createdTxns
      = [{ kind := TransactionKind.auth, token := "", amount := 100,
           is_success := false, error := some ERROR_MSG }]
    ∧ (authorize ["dummy"] BackendResult.exn samplePayment "tok" false).trace.postprocessed
      = [] := by
  refine ⟨by decide, by decide⟩

/-- C2 amended: for every orchestration operation the post-processing hook runs
on the produced transaction exactly when the transaction is returned to the
caller, i.e. when `is_success` is true; when the produced transaction failed,
the `PaymentError` raised by the inner decorator skips the hook. -/
theorem C2_amended_postprocess_only_on_success (gws : List String)
    (backend : BackendResult) (payment : Payment) (token : String) (st : Bool)
    (amountOpt ramountOpt : Option Amount) :
    postprocessContract (process_payment gws backend payment token st)
    ∧ postprocessContract (authorize gws backend payment token st)
    ∧ postprocessContract (capture gws backend payment amountOpt st)
    ∧ postprocessContract (refund gws backend payment ramountOpt)
    ∧ postprocessContract (void gws backend payment)
    ∧ postprocessContract (confirm gws backend payment) := by
  refine ⟨?_, ?_, ?_, ?_, ?_, ?_⟩
  · exact wrapped_postprocessContract _
      (require_active_shape _ payment (process_payment_inner_shape gws backend token st payment))
  · exact wrapped_postprocessContract _
      (require_active_shape _ payment (authorize_inner_shape gws backend token st payment))
  · exact wrapped_postprocessContract _
      (require_active_shape _ payment (capture_inner_shape gws backend amountOpt st payment))
  · exact wrapped_postprocessContract _
      (require_active_shape _ payment (refund_inner_shape gws backend ramountOpt payment))
  · exact wrapped_postprocessContract _
      (require_active_shape _ payment (void_inner_shape gws backend payment))
  · exact wrapped_postprocessContract _
      (require_active_shape _ payment (confirm_inner_shape gws backend payment))

/-- C2 amended, witness: at a concrete failing `process_payment` run the hook
list is empty. -/
theorem C2_amended_witness :
    (process_payment ["dummy"] BackendResult.exn samplePayment "tok" false).trace.postprocessed
      = [] :=
  (C2_amended_postprocess_only_on_success ["dummy"] BackendResult.exn samplePayment
    "tok" false none none).1.2 (PyError.paymentError ERROR_MSG) (by decide)

/-- C9: for every operation, a persisted transaction with `is_success = false`
makes the call raise `PaymentError` built from the transaction's recorded
error via Python `or` (the fixed generic message when no — or an empty —
error is recorded), while a persisted successful transaction is returned
without raising. -/
theorem C9_unsuccessful_transaction_raises (gws : List String)
    (backend : BackendResult) (payment : Payment) (token : String) (st : Bool)
    (amountOpt ramountOpt : Option Amount) :
    raiseContract (process_payment gws backend payment token st)
    ∧ raiseContract (authorize gws backend payment token st)
    ∧ raiseContract (capture gws backend payment amountOpt st)
    ∧ raiseContract (refund gws backend payment ramountOpt)
    ∧ raiseContract (void gws backend payment)
    ∧ raiseContract (confirm gws backend payment) := by
  refine ⟨?_, ?_, ?_, ?_, ?_, ?_⟩
  · exact wrapped_raiseContract _
      (require_active_shape _ payment (process_payment_inner_shape gws backend token st payment))
  · exact wrapped_raiseContract _
      (require_active_shape _ payment (authorize_inner_shape gws backend token st payment))
  · exact wrapped_raiseContract _
      (require_active_shape _ payment (capture_inner_shape gws backend amountOpt st payment))
  · exact wrapped_raiseContract _
      (require_active_shape _ payment (refund_inner_shape gws backend ramountOpt payment))
  · exact wrapped_raiseContract _
      (require_active_shape _ payment (void_inner_shape gws backend payment))
  · exact wrapped_raiseContract _
      (require_active_shape _ payment (confirm_inner_shape gws backend payment))

/-- C9 witness: at a concrete run whose persisted transaction failed, the call
raises `PaymentError` with the transaction's recorded error message. -/
theorem C9_witness :
    (authorize ["dummy"] BackendResult.exn samplePayment "tok" false).outcome
      = Except.error (PyError.paymentError
          (pyOr (some ERROR_MSG) GENERIC_TRANSACTION_ERROR)) :=
  (C9_unsuccessful_transaction_raises ["dummy"] BackendResult.exn samplePayment
    "tok" false none none).2.1.1
    { kind := TransactionKind.auth, token := "", amount := 100,
      is_success := false, error := some ERROR_MSG }
    (by decide) (by decide)

end Saleor

namespace Saleor

/-- C4: `authorize` on an active payment with a resolvable gateway, when the
backend raises or returns a response failing validation, persists exactly one
transaction — kind AUTH, `is_success = false`, error `ERROR_MSG` — and raises
`PaymentError` carrying that same message. -/
theorem C4_authorize_gateway_fault_recorded (gws : List String)
    (backend : BackendResult) (payment : Payment) (token : String) (st : Bool)
    (g : String) (hact : payment.is_active = true)
    (hgw : payment.gateway = some g) (hg : g ∈ gws)
    (hfault : backend = BackendResult.exn
      ∨ ∃ r, backend = BackendResult.resp r ∧ r.well_formed = false) :
    (authorize gws backend payment token st).trace.createdTxns
      = [{ kind := TransactionKind.auth, token := "", amount := payment.total,
           is_success := false, error := some ERROR_MSG }]
    ∧ (authorize gws backend payment token st).outcome
      = Except.error (PyError.paymentError ERROR_MSG) := by
  have hfetch : _fetch_gateway_response backend = (none, some ERROR_MSG) := by
    rcases hfault with hb | ⟨r, hb, hwf⟩
    · rw [hb]
      rfl
    · rw [hb]
      simp [_fetch_gateway_response, validate_gateway_response, hwf]
  have hgate : _get_gateway gws payment = Except.ok g := by
    simp [_get_gateway, hgw, hg]
  simp [authorize, require_active_payment, hact, authorize_inner, clean_authorize,
        hgate, hfetch, create_payment_information, create_transaction,
        payment_postprocess, raise_payment_error, pyOr, ERROR_MSG,
        errResult, pureTrace, appendTransaction]

/-- C4 witness: concrete run with a raising backend. -/
theorem C4_witness :
    (authorize ["dummy"] BackendResult.exn samplePayment "tok" false).trace.createdTxns
      = [{ kind := TransactionKind.auth, token := "", amount := samplePayment.total,
           is_success := false, error := some ERROR_MSG }]
    ∧ (authorize ["dummy"] BackendResult.exn samplePayment "tok" false).outcome
      = Except.error (PyError.paymentError ERROR_MSG) :=
  C4_authorize_gateway_fault_recorded ["dummy"] BackendResult.exn samplePayment
    "tok" false "dummy" (by decide) (by decide) (by decide) (Or.inl rfl)

/-- C5: `refund` invokes the backend only when the (defaulted) amount is
positive, bounded by `captured_amount`, and the payment is refundable; when
that condition fails the call raises a `PaymentError` and persists nothing. -/
theorem C5_refund_amount_guard (gws : List String) (backend : BackendResult)
    (payment : Payment) (amountOpt : Option Amount) :
    ((refund gws backend payment amountOpt).trace.backendCalls ≠ [] →
      0 < amountOpt.getD payment.captured_amount
      ∧ amountOpt.getD payment.captured_amount ≤ payment.captured_amount
      ∧ payment.can_refund = true)
    ∧ (¬(0 < amountOpt.getD payment.captured_amount
        ∧ amountOpt.getD payment.captured_amount ≤ payment.captured_amount
        ∧ payment.can_refund = true) →
      (∃ msg, (refund gws backend payment amountOpt).outcome
        = Except.error (PyError.paymentError msg))
      ∧ (refund gws backend payment amountOpt).trace.createdTxns = []) := by
  have hfail : ¬(0 < amountOpt.getD payment.captured_amount
        ∧ amountOpt.getD payment.captured_amount ≤ payment.captured_amount
        ∧ payment.can_refund = true) →
      ∃ msg, refund gws backend payment amountOpt
        = errResult payment (PyError.paymentError msg) := by
    intro hc
    by_cases hact : payment.is_active = true
    · by_cases h1 : amountOpt.getD payment.captured_amount ≤ 0
      · refine ⟨"Amount should be a positive number.", ?_⟩
        have hv : _validate_refund_amound payment (amountOpt.getD payment.captured_amount)
            = Except.error (PyError.paymentError "Amount should be a positive number.") := by
          unfold _validate_refund_amound
          rw [if_pos h1]
        simp [refund, require_active_payment, hact, refund_inner, hv,
              payment_postprocess, raise_payment_error, errResult, pureTrace]
      · by_cases h2 : amountOpt.getD payment.captured_amount > payment.captured_amount
        · refine ⟨"Cannot refund more than captured", ?_⟩
          have hv : _validate_refund_amound payment (amountOpt.getD payment.captured_amount)
              = Except.error (PyError.paymentError "Cannot refund more than captured") := by
            unfold _validate_refund_amound
            rw [if_neg h1, if_pos h2]
          simp [refund, require_active_payment, hact, refund_inner, hv,
                payment_postprocess, raise_payment_error, errResult, pureTrace]
        · have hcr : payment.can_refund = false := by
            rcases Bool.eq_false_or_eq_true payment.can_refund with hb | hb
            · exact absurd ⟨lt_of_not_le h1, le_of_not_lt h2, hb⟩ hc
            · exact hb
          refine ⟨"This payment cannot be refunded.", ?_⟩
          have hv : _validate_refund_amound payment (amountOpt.getD payment.captured_amount)
              = Except.ok () := by
            unfold _validate_refund_amound
            rw [if_neg h1, if_neg (not_lt_of_le (le_of_not_lt h2))]
          simp [refund, require_active_payment, hact, refund_inner, hv, hcr,
                payment_postprocess, raise_payment_error, errResult, pureTrace]
    · refine ⟨"This payment is no longer active.", ?_⟩
      have hact2 : payment.is_active = false := by
        rcases Bool.eq_false_or_eq_true payment.is_active with hb | hb
        · exact absurd hb hact
        · exact hb
      simp [refund, require_active_payment, hact2,
            payment_postprocess, raise_payment_error, errResult, pureTrace]
  constructor
  · intro hbc
    by_contra hc
    obtain ⟨msg, hmsg⟩ := hfail hc
    rw [hmsg] at hbc
    exact hbc rfl
  · intro hc
    obtain ⟨msg, hmsg⟩ := hfail hc
    rw [hmsg]
    exact ⟨⟨msg, rfl⟩, rfl⟩

/-- Sample active refundable payment with `captured_amount = 100`. -/
def capturedPayment : Payment :=
  { gateway := some "dummy", is_active := true, captured_amount := 100, total := 100,
    can_refund := true, card_info := none, transactions := [] }

/-- C5 witness: refunding 150 against 100 captured fails with a `PaymentError`
and persists nothing. -/
theorem C5_witness :
    (∃ msg, (refund ["dummy"] BackendResult.exn capturedPayment (some 150)).outcome
      = Except.error (PyError.paymentError msg))
    ∧ (refund ["dummy"] BackendResult.exn capturedPayment (some 150)).trace.createdTxns
      = [] :=
  (C5_refund_amount_guard ["dummy"] BackendResult.exn capturedPayment (some 150)).2
    (by decide)

end Saleor

namespace Saleor

/-- Requirement of a prior successful transaction of `kind`: when none exists
the call fails with the source's (uninterpolated) lookup `PaymentError` before
any backend invocation and persists nothing; when one exists, every backend
invocation carries the token of the most recent successful one. -/
def requiresPriorTxn (r : OpResult) (payment : Payment) (kind : TransactionKind) : Prop :=
  (payment.transactions.find? (fun t => (t.kind == kind) && t.is_success) = none →
     r.outcome = Except.error
       (PyError.paymentError "Cannot find successful \x7bkind.value\x7d transaction")
     ∧ r.trace.backendCalls = [] ∧ r.trace.createdTxns = [])
  ∧ (∀ t, payment.transactions.find? (fun t2 => (t2.kind == kind) && t2.is_success) = some t →
     ∀ info ∈ r.trace.backendCalls, info.token = some t.token)

/-- C6: on an active payment with a resolvable gateway and passing amount
guards, `capture`, `void` and `confirm` require a prior successful AUTH and
`refund` a prior successful CAPTURE: a missing one raises the lookup
`PaymentError` before any backend call with nothing persisted, and an
existing one supplies the token passed to the backend. -/
theorem C6_prior_transaction_token_required (gws : List String)
    (backend : BackendResult) (payment : Payment) (g : String)
    (amountOpt ramountOpt : Option Amount) (st : Bool)
    (hact : payment.is_active = true) (hgw : payment.gateway = some g) (hg : g ∈ gws)
    (hcap : clean_capture payment (amountOpt.getD (get_charge_amount payment)) = Except.ok ())
    (hr1 : _validate_refund_amound payment (ramountOpt.getD payment.captured_amount) = Except.ok ())
    (hr2 : payment.can_refund = true) :
    requiresPriorTxn (capture gws backend payment amountOpt st) payment TransactionKind.auth
    ∧ requiresPriorTxn (refund gws backend payment ramountOpt) payment TransactionKind.capture
    ∧ requiresPriorTxn (void gws backend payment) payment TransactionKind.auth
    ∧ requiresPriorTxn (confirm gws backend payment) payment TransactionKind.auth := by
  have hgate : _get_gateway gws payment = Except.ok g := by
    simp [_get_gateway, hgw, hg]
  refine ⟨⟨?_, ?_⟩, ⟨?_, ?_⟩, ⟨?_, ?_⟩, ⟨?_, ?_⟩⟩
  · intro hnone
    have htok : _get_past_transaction_token payment TransactionKind.auth
        = Except.error (PyError.paymentError "Cannot find successful \x7bkind.value\x7d transaction") := by
      unfold _get_past_transaction_token
      rw [hnone]
    simp [capture, require_active_payment, hact, capture_inner, hcap, hgate, htok,
          payment_postprocess, raise_payment_error, errResult, pureTrace]
  · intro t ht info hinfo
    have htok : _get_past_transaction_token payment TransactionKind.auth
        = Except.ok t.token := by
      unfold _get_past_transaction_token
      rw [ht]
    have hbc : (capture gws backend payment amountOpt st).trace.backendCalls
        = [create_payment_information payment (some t.token)
             (some (amountOpt.getD (get_charge_amount payment))) st] := by
      unfold capture
      rw [payment_postprocess_backendCalls, raise_payment_error_trace]
      cases hr : (_fetch_gateway_response backend).1 with
      | none => simp [require_active_payment, hact, capture_inner, hcap, hgate, htok, hr]
      | some r => simp [require_active_payment, hact, capture_inner, hcap, hgate, htok, hr]
    rw [hbc] at hinfo
    simp only [List.mem_singleton] at hinfo
    rw [hinfo]
    rfl
  · intro hnone
    have htok : _get_past_transaction_token payment TransactionKind.capture
        = Except.error (PyError.paymentError "Cannot find successful \x7bkind.value\x7d transaction") := by
      unfold _get_past_transaction_token
      rw [hnone]
    simp [refund, require_active_payment, hact, refund_inner, hr1, hr2, hgate, htok,
          payment_postprocess, raise_payment_error, errResult, pureTrace]
  · intro t ht info hinfo
    have htok : _get_past_transaction_token payment TransactionKind.capture
        = Except.ok t.token := by
      unfold _get_past_transaction_token
      rw [ht]
    have hbc : (refund gws backend payment ramountOpt).trace.backendCalls
        = [create_payment_information payment (some t.token)
             (some (ramountOpt.getD payment.captured_amount)) false] := by
      unfold refund
      rw [payment_postprocess_backendCalls, raise_payment_error_trace]
      simp [require_active_payment, hact, refund_inner, hr1, hr2, hgate, htok]
    rw [hbc] at hinfo
    simp only [List.mem_singleton] at hinfo
    rw [hinfo]
    rfl
  · intro hnone
    have htok : _get_past_transaction_token payment TransactionKind.auth
        = Except.error (PyError.paymentError "Cannot find successful \x7bkind.value\x7d transaction") := by
      unfold _get_past_transaction_token
      rw [hnone]
    simp [void, require_active_payment, hact, void_inner, hgate, htok,
          payment_postprocess, raise_payment_error, errResult, pureTrace]
  · intro t ht info hinfo
    have htok : _get_past_transaction_token payment TransactionKind.auth
        = Except.ok t.token := by
      unfold _get_past_transaction_token
      rw [ht]
    have hbc : (void gws backend payment).trace.backendCalls
        = [create_payment_information payment (some t.token) none false] := by
      unfold void
      rw [payment_postprocess_backendCalls, raise_payment_error_trace]
      simp [require_active_payment, hact, void_inner, hgate, htok]
    rw [hbc] at hinfo
    simp only [List.mem_singleton] at hinfo
    rw [hinfo]
    rfl
  · intro hnone
    have htok : _get_past_transaction_token payment TransactionKind.auth
        = Except.error (PyError.paymentError "Cannot find successful \x7bkind.value\x7d transaction") := by
      unfold _get_past_transaction_token
      rw [hnone]
    simp [confirm, require_active_payment, hact, confirm_inner, hgate, htok,
          payment_postprocess, raise_payment_error, errResult, pureTrace]
  · intro t ht info hinfo
    have htok : _get_past_transaction_token payment TransactionKind.auth
        = Except.ok t.token := by
      unfold _get_past_transaction_token
      rw [ht]
    have hbc : (confirm gws backend payment).trace.backendCalls
        = [create_payment_information payment (some t.token) none false] := by
      unfold confirm
      rw [payment_postprocess_backendCalls, raise_payment_error_trace]
      simp [require_active_payment, hact, confirm_inner, hgate, htok]
    rw [hbc] at hinfo
    simp only [List.mem_singleton] at hinfo
    rw [hinfo]
    rfl

/-- Sample active refundable payment with captured amount but no transactions. -/
def noPriorPayment : Payment :=
  { gateway := some "dummy", is_active := true, captured_amount := 50, total := 100,
    can_refund := true, card_info := none, transactions := [] }

/-- C6 witness: `void` on an active payment without any successful AUTH fails
with the lookup error before any backend call. -/
theorem C6_witness :
    (void ["dummy"] BackendResult.exn noPriorPayment).outcome
      = Except.error
          (PyError.paymentError "Cannot find successful \x7bkind.value\x7d transaction")
    ∧ (void ["dummy"] BackendResult.exn noPriorPayment).trace.backendCalls = []
    ∧ (void ["dummy"] BackendResult.exn noPriorPayment).trace.createdTxns = [] :=
  ((C6_prior_transaction_token_required ["dummy"] BackendResult.exn noPriorPayment
      "dummy" (some 40) (some 30) false (by decide) (by decide) (by decide)
      (by decide) (by decide) (by decide)).2.2.1).1 (by decide)

end Saleor

namespace Saleor

/-- C7 amended: the active-payment check is applied to every mutating
operation and additionally to `create_payment_form`; the remaining read
operations are untouched by it — `get_client_token` either returns the
backend token or fails on gateway resolution (never with the
inactive-payment error), and `list_gateways` / `list_payment_sources` ignore
payments entirely. -/
theorem C7_amended_active_guard_coverage (gws : List String)
    (backend : BackendResult) (payment : Payment) (token : String) (st : Bool)
    (amountOpt ramountOpt : Option Amount) (formObj data clientTok : String)
    (glist : List String) (g cid : String) (srcs : List String)
    (h : payment.is_active = false) :
    inactiveRejected (process_payment gws backend payment token st)
    ∧ inactiveRejected (authorize gws backend payment token st)
    ∧ inactiveRejected (capture gws backend payment amountOpt st)
    ∧ inactiveRejected (refund gws backend payment ramountOpt)
    ∧ inactiveRejected (void gws backend payment)
    ∧ inactiveRejected (confirm gws backend payment)
    ∧ create_payment_form gws formObj payment data
        = Except.error (PyError.paymentError "This payment is no longer active.")
    ∧ (get_client_token gws clientTok payment = Except.ok clientTok
       ∨ get_client_token gws clientTok payment
         = Except.error
             (PyError.unboundLocalError "local variable gateway referenced before assignment"))
    ∧ list_gateways glist = glist
    ∧ list_payment_sources g cid srcs = srcs := by
  refine ⟨?_, ?_, ?_, ?_, ?_, ?_, ?_, ?_, rfl, rfl⟩
  · simp [process_payment, require_active_payment, h, inactiveRejected,
          payment_postprocess, raise_payment_error, errResult, pureTrace]
  · simp [authorize, require_active_payment, h, inactiveRejected,
          payment_postprocess, raise_payment_error, errResult, pureTrace]
  · simp [capture, require_active_payment, h, inactiveRejected,
          payment_postprocess, raise_payment_error, errResult, pureTrace]
  · simp [refund, require_active_payment, h, inactiveRejected,
          payment_postprocess, raise_payment_error, errResult, pureTrace]
  · simp [void, require_active_payment, h, inactiveRejected,
          payment_postprocess, raise_payment_error, errResult, pureTrace]
  · simp [confirm, require_active_payment, h, inactiveRejected,
          payment_postprocess, raise_payment_error, errResult, pureTrace]
  · simp [create_payment_form, require_active_payment, h]
  · cases hgw : _get_gateway gws payment with
    | ok g2 =>
      left
      simp [get_client_token, hgw]
    | error e =>
      right
      have he := _get_gateway_error gws payment e hgw
      simp [get_client_token, hgw, he]

/-- C7 amended, witness: concrete inactive payment. -/
theorem C7_amended_witness :
    inactiveRejected (process_payment ["dummy"] BackendResult.exn
      { samplePayment with is_active := false } "tok" false)
    ∧ inactiveRejected (authorize ["dummy"] BackendResult.exn
      { samplePayment with is_active := false } "tok" false)
    ∧ inactiveRejected (capture ["dummy"] BackendResult.exn
      { samplePayment with is_active := false } none false)
    ∧ inactiveRejected (refund ["dummy"] BackendResult.exn
      { samplePayment with is_active := false } none)
    ∧ inactiveRejected (void ["dummy"] BackendResult.exn
      { samplePayment with is_active := false })
    ∧ inactiveRejected (confirm ["dummy"] BackendResult.exn
      { samplePayment with is_active := false })
    ∧ create_payment_form ["dummy"] "form" { samplePayment with is_active := false } "data"
        = Except.error (PyError.paymentError "This payment is no longer active.")
    ∧ (get_client_token ["dummy"] "ct" { samplePayment with is_active := false }
        = Except.ok "ct"
       ∨ get_client_token ["dummy"] "ct" { samplePayment with is_active := false }
        = Except.error
            (PyError.unboundLocalError "local variable gateway referenced before assignment"))
    ∧ list_gateways ["dummy"] = ["dummy"]
    ∧ list_payment_sources "dummy" "cust" ["src"] = ["src"] :=
  C7_amended_active_guard_coverage ["dummy"] BackendResult.exn
    { samplePayment with is_active := false } "tok" false none none "form" "data" "ct"
    ["dummy"] "dummy" "cust" ["src"] (by decide)

end Saleor
